import Mathlib

/-!
Shallow embedding of the docMgr document-management pipeline
(`repository/vector_pipeline.py`, `repository/sqlDB.py`, `app.py`).

External collaborators (text extractors, the text splitter, the sentence
encoder, and the failure behaviour of ChromaDB calls) are abstracted as
fields of an environment record; the orchestration logic of the repository
is translated literally.  Python exceptions are modelled with
`Except String`; Python dictionaries with association lists over `PyVal`.
-/

namespace DocMgr

/-- Python primitive values as they appear in ChromaDB metadata and in the
dictionaries returned by `VectorPipeline` methods; `PyVal.none` models the
Python value None. -/
inductive PyVal where
  | none
  | str (s : String)
  | int (n : Int)
  | strList (l : List String)
  | dict (d : List (String × PyVal))

/-- A Python dictionary with string keys, in insertion order. -/
abbrev PyDict := List (String × PyVal)

/-- One entry of the ChromaDB collection: the arguments of one
`collection.add(embeddings=..., documents=..., metadatas=..., ids=...)` call
in `process_document`. -/
structure StoredChunk where
  id : String
  document : String
  embedding : List Float
  metadata : PyDict

/-- The state of the ChromaDB `documents` collection. -/
abbrev Store := List StoredChunk

/-- Shape of the dictionary returned by `collection.query` (lists indexed
first by query, then by result position). -/
structure QueryReply where
  ids : List (List String)
  documents : List (List String)
  metadatas : List (List PyDict)
  distances : List (List Float)

/-- The external collaborators of `VectorPipeline`, with explicit failure:
`extract` is `_extract_text_from_file`, `splitText` the LangChain
`text_splitter.split_text`, `encode` the sentence-transformers
`embedding_model.encode` (composed with the list conversion of
`_generate_embeddings`), `countTokens` the tiktoken `_count_tokens`.
The field `addFail` injects a possible failure of `collection.add` (on
success the collection appends the entry); `getWhere` is `collection.get`
filtered on the document_id metadata key, returning the matching entries in
an order chosen by the store; `queryStore`, `countStore` and `getLimit1` are
`collection.query`, `collection.count` and `collection.get` with limit 1
including metadatas. -/
structure Env where
  extract : String → String → Except String String
  splitText : String → Except String (List String)
  encode : List String → Except String (List (List Float))
  countTokens : String → Nat
  addFail : Store → StoredChunk → Option String
  getWhere : Store → Int → Except String (List StoredChunk)
  queryStore : Store → List Float → Nat → Except String QueryReply
  countStore : Store → Except String Nat
  getLimit1 : Store → Except String (List PyDict)

/-- The metadata dictionary built for chunk `i` in `process_document`
(lines 292-301 of `vector_pipeline.py`); the source expression
description-or-empty-string coerces an absent description to the empty
string before the upsert. -/
def buildMetadata (document_id : Int) (i : Nat) (original_filename : String)
    (content_type : String) (description : Option String)
    (chunk_size : Nat) (total_chunks : Nat) : PyDict :=
  [("document_id", PyVal.int document_id),
   ("chunk_index", PyVal.int i),
   ("original_filename", PyVal.str original_filename),
   ("content_type", PyVal.str content_type),
   ("description", PyVal.str (description.getD "")),
   ("chunk_size", PyVal.int chunk_size),
   ("total_chunks", PyVal.int total_chunks)]

/-- The chunk id built by the f-string of line 289: the decimal document id,
an underscore, and the decimal chunk index. -/
def chunkIdStr (document_id : Int) (i : Nat) : String :=
  toString document_id ++ "_" ++ toString i

/-- The collection entry built for chunk `i` of a document. -/
def mkEntry (env : Env) (document_id : Int) (original_filename : String)
    (content_type : String) (description : Option String) (total_chunks : Nat)
    (i : Nat) (p : String × List Float) : StoredChunk :=
  { id := chunkIdStr document_id i
    document := p.1
    embedding := p.2
    metadata := buildMetadata document_id i original_filename content_type
      description (env.countTokens p.1) total_chunks }

/-- The storage loop of `process_document` (lines 287-309): for each
`(chunk, embedding)` pair at index `i`, append the chunk id, build metadata
and call `collection.add`.  Returns the collection state (partial writes are
kept on failure), the accumulated chunk ids, and the exception message of a
failed `add`, if any. -/
def addChunks (env : Env) (document_id : Int) (original_filename : String)
    (content_type : String) (description : Option String) (total_chunks : Nat) :
    Store → Nat → List (String × List Float) →
      Store × List String × Option String
  | store, _, [] => (store, [], Option.none)
  | store, i, p :: rest =>
    let entry := mkEntry env document_id original_filename content_type
      description total_chunks i p
    match env.addFail store entry with
    | some e => (store, [entry.id], some e)
    | Option.none =>
      let r := addChunks env document_id original_filename content_type
        description total_chunks (store ++ [entry]) (i + 1) rest
      (r.1, entry.id :: r.2.1, r.2.2)

/-- The `try` body of `process_document` (lines 276-318): extract, chunk,
embed, store, then build the success dictionary.  The first component is the
collection state reached (kept even when the second component is an
exception). -/
def processBody (env : Env) (store : Store) (file_path : String)
    (content_type : String) (document_id : Int) (original_filename : String)
    (description : Option String) : Store × Except String PyDict :=
  match env.extract file_path content_type with
  | .error e => (store, .error e)
  | .ok text =>
    match env.splitText text with
    | .error e => (store, .error e)
    | .ok chunks =>
      match env.encode chunks with
      | .error e => (store, .error e)
      | .ok embeddings =>
        let r := addChunks env document_id original_filename content_type
          description chunks.length store 0 (chunks.zip embeddings)
        match r.2.2 with
        | some e => (r.1, .error e)
        | Option.none =>
          (r.1, .ok
            [("document_id", PyVal.int document_id),
             ("original_filename", PyVal.str original_filename),
             ("total_chunks", PyVal.int chunks.length),
             ("total_tokens", PyVal.int ((chunks.map env.countTokens).sum : Nat)),
             ("chunk_ids", PyVal.strList r.2.1),
             ("status", PyVal.str "processed")])

/-- Model of `VectorPipeline.process_document` (lines 273-326): run the body; any
exception is caught and converted into the error dictionary of lines
321-326.  Returns the result dictionary and the collection state. -/
def process_document (env : Env) (store : Store) (file_path : String)
    (content_type : String) (document_id : Int) (original_filename : String)
    (description : Option String) : PyDict × Store :=
  match processBody env store file_path content_type document_id
      original_filename description with
  | (store2, .ok d) => (d, store2)
  | (store2, .error e) =>
    ([("document_id", PyVal.int document_id),
      ("original_filename", PyVal.str original_filename),
      ("status", PyVal.str "error"),
      ("error", PyVal.str e)], store2)

/-- Whether a stored chunk has the given integer document_id in its
metadata, i.e. satisfies the where-filter used by get and delete. -/
def matchesDoc (c : StoredChunk) (document_id : Int) : Bool :=
  match c.metadata.lookup "document_id" with
  | some (PyVal.int k) => k == document_id
  | _ => false

/-- One element of the list built by `get_document_chunks`
(lines 368-372). -/
structure COut where
  chunk_id : String
  content : String
  metadata : PyDict

/-- The metadata value under the chunk_index key read as a sort key; only
meaningful when the key is present with an integer value. -/
def sortKeyOf (o : Option PyVal) : Int :=
  match o with
  | some (PyVal.int k) => k
  | _ => 0

/-- The key function of the sorted call of line 374: the chunk_index entry
of the metadata of a wrapped chunk. -/
def chunkSortKey (c : COut) : Int :=
  sortKeyOf (c.metadata.lookup "chunk_index")

/-- Whether the sort-key lookup succeeds with an integer (otherwise the
sorted call of the source raises a KeyError). -/
def hasChunkIndex (c : COut) : Bool :=
  match c.metadata.lookup "chunk_index" with
  | some (PyVal.int _) => true
  | _ => false

/-- The dictionary built per row by `get_document_chunks`
(lines 368-372). -/
def toCOut (c : StoredChunk) : COut :=
  { chunk_id := c.id, content := c.document, metadata := c.metadata }

/-- The comparison the sorted call induces on wrapped chunks: ascending
chunk_index. -/
def chunkLe (a b : COut) : Bool :=
  decide (chunkSortKey a ≤ chunkSortKey b)

/-- Model of `VectorPipeline.get_document_chunks` (lines 357-377): fetch by
the document_id where-filter, wrap each row, sort ascending by the
chunk_index metadata entry; any exception (a failed get, or a KeyError from
the sort key) is re-raised wrapped in the retrieving-error prefix. -/
def get_document_chunks (env : Env) (store : Store) (document_id : Int) :
    Except String (List COut) :=
  match env.getWhere store document_id with
  | .error e => .error ("Error retrieving document chunks: " ++ e)
  | .ok raw =>
    let chunks : List COut := raw.map toCOut
    if chunks.all hasChunkIndex then
      .ok (chunks.mergeSort chunkLe)
    else
      .error "Error retrieving document chunks: KeyError chunk_index"

/-- Model of `VectorPipeline.delete_document_chunks` (lines 379-394): fetch
the ids matching the document_id where-filter; if any, delete them in one
batch call; return `True`.  The ChromaDB calls are modelled by their
contract (metadata-filtered get; delete by id is a no-op for absent ids). -/
def delete_document_chunks (store : Store) (document_id : Int) :
    Bool × Store :=
  let ids := (store.filter (fun c => matchesDoc c document_id)).map (fun c => c.id)
  if ids.isEmpty then (true, store)
  else (true, store.filter (fun c => !(ids.contains c.id)))

/-- One formatted search result (lines 345-350);
`similarity_score = 1 - distance`. -/
structure SearchResult where
  chunk_id : String
  content : String
  metadata : PyDict
  similarity_score : Float

/-- Python list indexing: `l[i]`, raising `IndexError` out of range. -/
def pyIndex {α : Type} (l : List α) (i : Nat) : Except String α :=
  match l.get? i with
  | some a => .ok a
  | Option.none => .error "list index out of range"

/-- The result-formatting loop of `search_documents` (lines 342-350):
iterate the index over the length of the first id list of the reply,
indexing into the parallel lists. -/
def formatResults (r : QueryReply) (ids0 : List String) :
    Except String (List SearchResult) :=
  (List.range ids0.length).mapM (fun i => do
    let cid ← pyIndex ids0 i
    let docs0 ← pyIndex r.documents 0
    let content ← pyIndex docs0 i
    let metas0 ← pyIndex r.metadatas 0
    let md ← pyIndex metas0 i
    let dists0 ← pyIndex r.distances 0
    let d ← pyIndex dists0 i
    pure { chunk_id := cid, content := content, metadata := md,
           similarity_score := 1 - d : SearchResult })

/-- The try-body of `search_documents` (lines 330-352): embed the query as
a one-element batch, take element zero, query the store, format. -/
def searchBody (env : Env) (store : Store) (query : String)
    (n_results : Nat) : Except String (List SearchResult) :=
  match env.encode [query] with
  | Except.error e => Except.error e
  | Except.ok embs =>
    match pyIndex embs 0 with
    | Except.error e => Except.error e
    | Except.ok qe =>
      match env.queryStore store qe n_results with
      | Except.error e => Except.error e
      | Except.ok r =>
        match r.ids with
        | [] => Except.ok []
        | ids0 :: _ => formatResults r ids0

/-- Model of `VectorPipeline.search_documents` (lines 328-355): run the
body; any exception is re-raised wrapped in the searching-error prefix. -/
def search_documents (env : Env) (store : Store) (query : String)
    (n_results : Nat) : Except String (List SearchResult) :=
  match searchBody env store query n_results with
  | .ok res => .ok res
  | .error e => .error ("Error searching documents: " ++ e)

/-- The try-body of `get_collection_stats` (lines 398-408): count the
collection, fetch one sample metadata record and shape the stats
dictionary. -/
def statsBody (env : Env) (store : Store) : Except String PyDict :=
  match env.countStore store with
  | Except.error e => Except.error e
  | Except.ok count =>
    match env.getLimit1 store with
    | Except.error e => Except.error e
    | Except.ok metas =>
      Except.ok
        [("total_chunks", PyVal.int count),
         ("collection_name", PyVal.str "documents"),
         ("sample_metadata",
           match metas with
           | m :: _ => PyVal.dict m
           | [] => PyVal.none)]

/-- Model of `VectorPipeline.get_collection_stats` (lines 396-411): run the
body; ANY exception is caught and turned into a normally-returned one-entry
dictionary holding the message under the error key — this method never
raises. -/
def get_collection_stats (env : Env) (store : Store) : Except String PyDict :=
  match statsBody env store with
  | .ok d => .ok d
  | .error e => .ok [("error", PyVal.str e)]

/-! ### Image extraction (`_extract_text_from_image`, lines 164-246)

The image libraries (cv2, pytesseract) and the Groq client are abstracted as
an environment over an abstract image type. -/

/-- External collaborators of the image extractor: `groq_api_key` is the
result of reading GROQ_API_KEY from the process environment; `imread` is the
cv2 image load (`Option.none` when the
file cannot be loaded); `cvtColor`, `denoise`, `clahe` are the preprocessing
steps; `ocr img config` is `pytesseract.image_to_string(img, config=config)`;
`groqCall prompt` is the chat-completion call returning the message content,
or an exception message. -/
structure ImgEnv (Img : Type) where
  groq_api_key : Option String
  imread : String → Option Img
  cvtColor : Img → Img
  denoise : Img → Img
  clahe : Img → Img
  ocr : Img → String → String
  groqCall : String → Except String String

/-- The captioning prompt built around the OCR text (lines 205-218). -/
def groqPrompt (ocr_text : String) : String :=
  "Analyze this OCR text from an image and provide a detailed, structured description. OCR Text: "
    ++ ocr_text

/-- The OCR text obtained from a loaded image (lines 186-202): grayscale,
denoise, contrast-enhance, OCR with page-segmentation mode 6, retrying with
mode 3 when the first pass yields only whitespace. -/
def ocrTextOf {Img : Type} (env : ImgEnv Img) (image : Img) : String :=
  let gray := env.cvtColor image
  let denoised := env.denoise gray
  let enhanced := env.clahe denoised
  let firstPass := env.ocr enhanced "--psm 6"
  if firstPass.trim = "" then env.ocr enhanced "--psm 3" else firstPass

/-- The try-body of the image extractor (lines 166-241): raise when
GROQ_API_KEY is unset (before any OCR is attempted, the raise of line 176);
load the image (raising when it cannot be loaded); run OCR; call the Groq
captioning model (the key is consumed by the client the call runs through),
combining OCR text and description on success and degrading to OCR-only
text with a note when the call fails. -/
def imageBody {Img : Type} (env : ImgEnv Img) (file_path : String) :
    Except String String :=
  match env.groq_api_key with
  | Option.none => Except.error "GROQ_API_KEY environment variable not set"
  | some _ =>
    match env.imread file_path with
    | Option.none => Except.error "Could not load image file"
    | some image =>
      let ocr_text := ocrTextOf env image
      match env.groqCall (groqPrompt ocr_text) with
      | Except.ok content =>
        Except.ok ("OCR Text:\n" ++ ocr_text ++ "\n\nAI Description:\n"
          ++ content.trim)
      | Except.error _ =>
        Except.ok ("OCR Text:\n" ++ ocr_text
          ++ "\n\nNote: AI description generation failed")

/-- Model of the image extractor of `VectorPipeline` (lines 164-246, the
method named extract text from image): run the body; every exception is
wrapped in the image-processing-error prefix and re-raised. -/
def extract_text_from_image {Img : Type} (env : ImgEnv Img)
    (file_path : String) : Except String String :=
  match imageBody env file_path with
  | Except.ok t => Except.ok t
  | Except.error e => Except.error ("Error processing image: " ++ e)

/-! ### Application layer (`app.py`, `repository/sqlDB.py`) -/

/-- A row of the relational `documents` table
(`create_document_record`, `sqlDB.py`). -/
structure DocRecord where
  id : Int
  filename : String
  original_filename : String
  file_path : String
  file_size : Nat
  content_type : String
  description : Option String

/-- The id SQLite assigns to the inserted row (`cursor.lastrowid`),
modelled as one more than the largest existing id. -/
def nextId (db : List DocRecord) : Int :=
  (db.map DocRecord.id).foldl max 0 + 1

/-- Model of `create_document_record` (`sqlDB.py` lines 4-24): insert the
row and return the assigned id. -/
def create_document_record (db : List DocRecord) (filename : String)
    (original_filename : String) (file_path : String) (file_size : Nat)
    (content_type : String) (description : Option String) :
    Int × List DocRecord :=
  let did := nextId db
  (did, db ++ [{ id := did, filename := filename,
                 original_filename := original_filename,
                 file_path := file_path, file_size := file_size,
                 content_type := content_type, description := description }])

/-- Model of `is_vector_processable` (`app.py` lines 77-79). -/
def is_vector_processable (content_type : String) : Bool :=
  ["text/plain", "text/markdown", "application/pdf",
   "application/vnd.openxmlformats-officedocument.wordprocessingml.document"].contains content_type
    || content_type.startsWith "image/"

/-- Model of `process_single_document` (`app.py` lines 101-122) from the point where
the uploaded file has been saved to disk: create the relational record, then
run the vector pipeline when the content type is processable (the
`VECTOR_PIPELINE_AVAILABLE` case).  Returns the updated table, the updated
collection and the processing result (`Option.none` when the pipeline was
skipped, as in `process_document_with_vector_pipeline`). -/
def process_single_document (env : Env) (db : List DocRecord) (store : Store)
    (unique_filename : String) (original_filename : String)
    (file_path : String) (file_size : Nat) (content_type : String)
    (description : Option String) :
    List DocRecord × Store × Option PyDict :=
  let r := create_document_record db unique_filename original_filename
    file_path file_size content_type description
  if is_vector_processable content_type then
    let pr := process_document env store file_path content_type r.1
      original_filename description
    (r.2, pr.2, some pr.1)
  else
    (r.2, store, Option.none)

/-! ### Bulk upload (`upload_multiple_documents`, `app.py` lines 147-181)

The per-file work (`process_single_document`, including disk writes and the
relational insert) is abstracted as a state-transforming function `p` that
may raise; `σ` is the full application state and `ρ` the per-file response
type. -/

/-- An uploaded file as seen by the handler; an empty `filename` models a
falsy `file.filename`. -/
structure FileInput where
  filename : String

/-- The response model `BulkUploadResponse`. -/
structure BulkResponse (ρ : Type) where
  message : String
  uploaded_count : Nat
  documents : List ρ
  errors : List String

/-- The `for file in files` loop (lines 162-174): skip files without a
filename (recording an error), otherwise run `p`, collecting the response on
success and the error message on failure; a failure never aborts the
remaining files. -/
def uploadLoop {σ ρ : Type} (p : FileInput → σ → Except String (ρ × σ)) :
    σ → List FileInput → List ρ × List String × σ
  | st, [] => ([], [], st)
  | st, f :: rest =>
    if f.filename = "" then
      let r := uploadLoop p st rest
      (r.1, ("File unnamed: No filename provided") :: r.2.1, r.2.2)
    else
      match p f st with
      | Except.ok (resp, st1) =>
        let r := uploadLoop p st1 rest
        (resp :: r.1, r.2.1, r.2.2)
      | Except.error e =>
        let r := uploadLoop p st rest
        (r.1, ("File " ++ f.filename ++ ": " ++ e) :: r.2.1, r.2.2)

/-- Model of `upload_multiple_documents` (lines 147-181): reject an empty file list
and a list of more than 10 files with an HTTP 400 before any processing;
otherwise run the loop and shape the `BulkUploadResponse`.  The `Except`
error carries `(status_code, detail)` of the raised `HTTPException`. -/
def upload_multiple_documents {σ ρ : Type}
    (p : FileInput → σ → Except String (ρ × σ)) (st : σ)
    (files : List FileInput) :
    Except (Nat × String) (BulkResponse ρ × σ) :=
  if files.isEmpty then
    .error (400, "No files provided")
  else if files.length > 10 then
    .error (400, "Maximum 10 files allowed per request")
  else
    let r := uploadLoop p st files
    .ok ({ message := "Upload completed. " ++ toString r.1.length
             ++ " files uploaded successfully.",
           uploaded_count := r.1.length,
           documents := r.1,
           errors := r.2.1 }, r.2.2)

/-! ### Helper lemmas about the storage loop -/

/-- The entries the storage loop appends to the collection when every add
succeeds, starting at chunk index `i`. -/
def entriesOf (env : Env) (document_id : Int) (original_filename : String)
    (content_type : String) (description : Option String) (total_chunks : Nat) :
    Nat → List (String × List Float) → List StoredChunk
  | _, [] => []
  | i, p :: rest =>
    mkEntry env document_id original_filename content_type description
        total_chunks i p ::
      entriesOf env document_id original_filename content_type description
        total_chunks (i + 1) rest

/-- The chunk ids the storage loop accumulates when every add succeeds,
starting at chunk index `i`. -/
def idsOf (document_id : Int) : Nat → List (String × List Float) → List String
  | _, [] => []
  | i, _ :: rest => chunkIdStr document_id i :: idsOf document_id (i + 1) rest

theorem entriesOf_length (env : Env) (did : Int) (ofn ct : String)
    (desc : Option String) (total : Nat) :
    ∀ (i : Nat) (pairs : List (String × List Float)),
      (entriesOf env did ofn ct desc total i pairs).length = pairs.length
  | _, [] => rfl
  | i, _ :: rest => by
    simp [entriesOf, entriesOf_length env did ofn ct desc total (i + 1) rest]

theorem idsOf_length (did : Int) :
    ∀ (i : Nat) (pairs : List (String × List Float)),
      (idsOf did i pairs).length = pairs.length
  | _, [] => rfl
  | i, _ :: rest => by simp [idsOf, idsOf_length did (i + 1) rest]

theorem entriesOf_getElem? (env : Env) (did : Int) (ofn ct : String)
    (desc : Option String) (total : Nat) :
    ∀ (i : Nat) (pairs : List (String × List Float)) (j : Nat),
      (entriesOf env did ofn ct desc total i pairs)[j]? =
        (pairs[j]?).map (fun p => mkEntry env did ofn ct desc total (i + j) p)
  | _, [], j => by simp [entriesOf]
  | i, p :: rest, 0 => by simp [entriesOf]
  | i, p :: rest, j + 1 => by
    have h := entriesOf_getElem? env did ofn ct desc total (i + 1) rest j
    have hadd : i + 1 + j = i + (j + 1) := by omega
    simp only [entriesOf, List.getElem?_cons_succ, h, hadd]

theorem idsOf_getElem? (did : Int) :
    ∀ (i : Nat) (pairs : List (String × List Float)) (j : Nat),
      (idsOf did i pairs)[j]? =
        (pairs[j]?).map (fun _ => chunkIdStr did (i + j))
  | _, [], j => by simp [idsOf]
  | i, p :: rest, 0 => by simp [idsOf]
  | i, p :: rest, j + 1 => by
    have h := idsOf_getElem? did (i + 1) rest j
    have hadd : i + 1 + j = i + (j + 1) := by omega
    simp only [idsOf, List.getElem?_cons_succ, h, hadd]

/-- When the storage loop reports no failure, it appended exactly
`entriesOf` and accumulated exactly `idsOf`. -/
theorem addChunks_eq_of_none (env : Env) (did : Int) (ofn ct : String)
    (desc : Option String) (total : Nat) :
    ∀ (pairs : List (String × List Float)) (store : Store) (i : Nat),
      (addChunks env did ofn ct desc total store i pairs).2.2 = Option.none →
      addChunks env did ofn ct desc total store i pairs
        = (store ++ entriesOf env did ofn ct desc total i pairs,
           idsOf did i pairs, Option.none)
  | [], store, i, _ => by simp [addChunks, entriesOf, idsOf]
  | p :: rest, store, i, h => by
    simp only [addChunks] at h ⊢
    cases hf : env.addFail store (mkEntry env did ofn ct desc total i p) with
    | some e => rw [hf] at h; simp at h
    | none =>
      rw [hf] at h
      dsimp only at h ⊢
      have ih := addChunks_eq_of_none env did ofn ct desc total rest
        (store ++ [mkEntry env did ofn ct desc total i p]) (i + 1) h
      rw [ih]
      simp [entriesOf, idsOf, mkEntry]

/-- In every case (success or partial failure) the storage loop only appends
entries of the shape `mkEntry`. -/
theorem addChunks_store_suffix (env : Env) (did : Int) (ofn ct : String)
    (desc : Option String) (total : Nat) :
    ∀ (pairs : List (String × List Float)) (store : Store) (i : Nat),
      ∃ entries,
        (addChunks env did ofn ct desc total store i pairs).1
            = store ++ entries ∧
        ∀ e ∈ entries, ∃ k p, e = mkEntry env did ofn ct desc total k p
  | [], store, i => ⟨[], by simp [addChunks], by simp⟩
  | p :: rest, store, i => by
    simp only [addChunks]
    cases hf : env.addFail store (mkEntry env did ofn ct desc total i p) with
    | some e => exact ⟨[], by simp, by simp⟩
    | none =>
      obtain ⟨entries, h1, h2⟩ := addChunks_store_suffix env did ofn ct desc
        total rest (store ++ [mkEntry env did ofn ct desc total i p]) (i + 1)
      refine ⟨mkEntry env did ofn ct desc total i p :: entries, ?_, ?_⟩
      · simp only [h1, List.append_assoc, List.singleton_append]
      · intro e he
        rcases List.mem_cons.mp he with rfl | he
        · exact ⟨i, p, rfl⟩
        · exact h2 e he

/-- No value of a built metadata dictionary is the Python None. -/
theorem buildMetadata_no_none (did : Int) (i : Nat) (ofn ct : String)
    (desc : Option String) (sz total : Nat) :
    ∀ kv ∈ buildMetadata did i ofn ct desc sz total, kv.2 ≠ PyVal.none := by
  intro kv hkv
  simp only [buildMetadata, List.mem_cons, List.not_mem_nil, or_false] at hkv
  rcases hkv with rfl | rfl | rfl | rfl | rfl | rfl | rfl <;> simp

theorem buildMetadata_lookup_chunk_index (did : Int) (i : Nat) (ofn ct : String)
    (desc : Option String) (sz total : Nat) :
    (buildMetadata did i ofn ct desc sz total).lookup "chunk_index"
      = some (PyVal.int i) := rfl

theorem buildMetadata_lookup_total_chunks (did : Int) (i : Nat) (ofn ct : String)
    (desc : Option String) (sz total : Nat) :
    (buildMetadata did i ofn ct desc sz total).lookup "total_chunks"
      = some (PyVal.int total) := rfl

theorem buildMetadata_lookup_document_id (did : Int) (i : Nat) (ofn ct : String)
    (desc : Option String) (sz total : Nat) :
    (buildMetadata did i ofn ct desc sz total).lookup "document_id"
      = some (PyVal.int did) := rfl

theorem buildMetadata_lookup_description (did : Int) (i : Nat) (ofn ct : String)
    (desc : Option String) (sz total : Nat) :
    (buildMetadata did i ofn ct desc sz total).lookup "description"
      = some (PyVal.str (desc.getD "")) := rfl

/-- Inversion of a successful run of the try-body of `process_document`:
every step succeeded and the result is the literal success dictionary. -/
theorem processBody_ok_inv (env : Env) (store : Store) (fp ct : String)
    (did : Int) (ofn : String) (desc : Option String) (store2 : Store)
    (d : PyDict)
    (h : processBody env store fp ct did ofn desc = (store2, Except.ok d)) :
    ∃ text chunks embeddings,
      env.extract fp ct = Except.ok text ∧
      env.splitText text = Except.ok chunks ∧
      env.encode chunks = Except.ok embeddings ∧
      (addChunks env did ofn ct desc chunks.length store 0
        (chunks.zip embeddings)).2.2 = Option.none ∧
      store2 = (addChunks env did ofn ct desc chunks.length store 0
        (chunks.zip embeddings)).1 ∧
      d = [("document_id", PyVal.int did),
           ("original_filename", PyVal.str ofn),
           ("total_chunks", PyVal.int chunks.length),
           ("total_tokens", PyVal.int ((chunks.map env.countTokens).sum : Nat)),
           ("chunk_ids", PyVal.strList (addChunks env did ofn ct desc
              chunks.length store 0 (chunks.zip embeddings)).2.1),
           ("status", PyVal.str "processed")] := by
  unfold processBody at h
  cases h1 : env.extract fp ct with
  | error e => rw [h1] at h; simp at h
  | ok text =>
    rw [h1] at h
    dsimp only at h
    cases h2 : env.splitText text with
    | error e => rw [h2] at h; simp at h
    | ok chunks =>
      rw [h2] at h
      dsimp only at h
      cases h3 : env.encode chunks with
      | error e => rw [h3] at h; simp at h
      | ok embeddings =>
        rw [h3] at h
        dsimp only at h
        cases h4 : (addChunks env did ofn ct desc chunks.length store 0
            (chunks.zip embeddings)).2.2 with
        | some e => rw [h4] at h; simp at h
        | none =>
          rw [h4] at h
          dsimp only at h
          rw [Prod.mk.injEq] at h
          obtain ⟨hs, hd⟩ := h
          refine ⟨text, chunks, embeddings, rfl, h2, h3, h4, hs.symm, ?_⟩
          injection hd with hd'
          exact hd'.symm

/-- When the try-body raises, `process_document` returns the literal error
dictionary of lines 321-326 together with the state the body reached. -/
theorem process_document_of_body_error (env : Env) (store : Store)
    (fp ct : String) (did : Int) (ofn : String) (desc : Option String)
    (store2 : Store) (e : String)
    (h : processBody env store fp ct did ofn desc = (store2, Except.error e)) :
    process_document env store fp ct did ofn desc =
      ([("document_id", PyVal.int did),
        ("original_filename", PyVal.str ofn),
        ("status", PyVal.str "error"),
        ("error", PyVal.str e)], store2) := by
  unfold process_document
  rw [h]

/-- The collection state returned by `process_document` is the state reached
by its try-body (partial writes survive an error). -/
theorem process_document_store_eq (env : Env) (store : Store) (fp ct : String)
    (did : Int) (ofn : String) (desc : Option String) :
    (process_document env store fp ct did ofn desc).2
      = (processBody env store fp ct did ofn desc).1 := by
  unfold process_document
  cases hb : processBody env store fp ct did ofn desc with
  | mk store2 r => cases r <;> rfl

/-- In every case the try-body only appends entries of shape `mkEntry` to
the collection. -/
theorem processBody_store_suffix (env : Env) (store : Store) (fp ct : String)
    (did : Int) (ofn : String) (desc : Option String) :
    ∃ entries,
      (processBody env store fp ct did ofn desc).1 = store ++ entries ∧
      ∀ e ∈ entries, ∃ total k p, e = mkEntry env did ofn ct desc total k p := by
  unfold processBody
  cases h1 : env.extract fp ct with
  | error e => exact ⟨[], by simp, by simp⟩
  | ok text =>
    dsimp only
    cases h2 : env.splitText text with
    | error e => exact ⟨[], by simp, by simp⟩
    | ok chunks =>
      dsimp only
      cases h3 : env.encode chunks with
      | error e => exact ⟨[], by simp, by simp⟩
      | ok embeddings =>
        dsimp only
        obtain ⟨entries, hst, hmem⟩ := addChunks_store_suffix env did ofn ct
          desc chunks.length (chunks.zip embeddings) store 0
        refine ⟨entries, ?_, fun e he => ?_⟩
        · cases h4 : (addChunks env did ofn ct desc chunks.length store 0
              (chunks.zip embeddings)).2.2 <;> simpa [h4] using hst
        · obtain ⟨k, p, hkp⟩ := hmem e he
          exact ⟨chunks.length, k, p, hkp⟩

/-! ### Concrete environments used by witnesses -/

/-- An environment whose text extraction always raises. -/
def envFail : Env :=
  { extract := fun _ _ => Except.error "boom"
    splitText := fun t => Except.ok [t]
    encode := fun ts => Except.ok (ts.map (fun _ => []))
    countTokens := fun s => s.length
    addFail := fun _ _ => Option.none
    getWhere := fun s d => Except.ok (s.filter (fun c => matchesDoc c d))
    queryStore := fun _ _ _ => Except.error "backend down"
    countStore := fun _ => Except.error "backend down"
    getLimit1 := fun _ => Except.ok [] }

/-- An environment that extracts an empty text and chunks it to nothing. -/
def envEmpty : Env :=
  { extract := fun _ _ => Except.ok ""
    splitText := fun _ => Except.ok []
    encode := fun ts => Except.ok (ts.map (fun _ => []))
    countTokens := fun s => s.length
    addFail := fun _ _ => Option.none
    getWhere := fun s d => Except.ok (s.filter (fun c => matchesDoc c d))
    queryStore := fun _ _ _ => Except.ok ⟨[], [], [], []⟩
    countStore := fun s => Except.ok s.length
    getLimit1 := fun _ => Except.ok [] }

/-- An environment on which processing fully succeeds with two chunks. -/
def envTwo : Env :=
  { extract := fun _ _ => Except.ok "alpha beta"
    splitText := fun _ => Except.ok ["alpha", "beta"]
    encode := fun ts => Except.ok (ts.map (fun _ => []))
    countTokens := fun s => s.length
    addFail := fun _ _ => Option.none
    getWhere := fun s d => Except.ok (s.filter (fun c => matchesDoc c d))
    queryStore := fun _ _ _ => Except.ok ⟨[], [], [], []⟩
    countStore := fun s => Except.ok s.length
    getLimit1 := fun _ => Except.ok [] }

/-! ### Claims -/

/-- C5: on an input whose chunking step yields the empty chunk sequence,
`process_document` still returns the success dictionary with status
processed, zero total chunks, zero total tokens and an empty chunk id list,
and stores nothing. -/
theorem C5_empty_chunking_success (env : Env) (store : Store)
    (fp ct : String) (did : Int) (ofn : String) (desc : Option String)
    (t : String)
    (h1 : env.extract fp ct = Except.ok t)
    (h2 : env.splitText t = Except.ok [])
    (h3 : env.encode [] = Except.ok []) :
    process_document env store fp ct did ofn desc =
      ([("document_id", PyVal.int did),
        ("original_filename", PyVal.str ofn),
        ("total_chunks", PyVal.int 0),
        ("total_tokens", PyVal.int 0),
        ("chunk_ids", PyVal.strList []),
        ("status", PyVal.str "processed")], store) := by
  unfold process_document processBody
  rw [h1]
  dsimp only
  rw [h2]
  dsimp only
  rw [h3]
  simp [addChunks]

/-- Witness for C5 at a concrete environment and empty collection. -/
theorem C5_witness :
    process_document envEmpty [] "f.txt" "text/plain" 1 "f.txt" Option.none =
      ([("document_id", PyVal.int 1),
        ("original_filename", PyVal.str "f.txt"),
        ("total_chunks", PyVal.int 0),
        ("total_tokens", PyVal.int 0),
        ("chunk_ids", PyVal.strList []),
        ("status", PyVal.str "processed")], []) :=
  C5_empty_chunking_success envEmpty [] "f.txt" "text/plain" 1 "f.txt"
    Option.none "" rfl rfl rfl

/-- C8: every metadata record submitted to the vector store by
`process_document` (also on a run that later fails partway) contains no
Python None value, and an absent description is stored as the empty
string. -/
theorem C8_metadata_never_none (env : Env) (store : Store) (fp ct : String)
    (did : Int) (ofn : String) (desc : Option String) :
    ∃ entries,
      (process_document env store fp ct did ofn desc).2 = store ++ entries ∧
      (∀ e ∈ entries, ∀ kv ∈ e.metadata, kv.2 ≠ PyVal.none) ∧
      (∀ e ∈ entries, desc = Option.none →
        e.metadata.lookup "description" = some (PyVal.str "")) := by
  obtain ⟨entries, hst, hmem⟩ :=
    processBody_store_suffix env store fp ct did ofn desc
  refine ⟨entries, ?_, fun e he kv hkv => ?_, fun e he hdesc => ?_⟩
  · rw [process_document_store_eq, hst]
  · obtain ⟨total, k, p, rfl⟩ := hmem e he
    exact buildMetadata_no_none did k ofn ct desc (env.countTokens p.1)
      total kv hkv
  · obtain ⟨total, k, p, rfl⟩ := hmem e he
    subst hdesc
    exact buildMetadata_lookup_description did k ofn ct Option.none
      (env.countTokens p.1) total

/-- Witness for C8 at a concrete successful two-chunk run with an absent
description. -/
theorem C8_witness :
    ∃ entries,
      (process_document envTwo [] "a.txt" "text/plain" 3 "a.txt"
          Option.none).2 = [] ++ entries ∧
      (∀ e ∈ entries, ∀ kv ∈ e.metadata, kv.2 ≠ PyVal.none) ∧
      (∀ e ∈ entries, (Option.none : Option String) = Option.none →
        e.metadata.lookup "description" = some (PyVal.str "")) :=
  C8_metadata_never_none envTwo [] "a.txt" "text/plain" 3 "a.txt" Option.none

/-- C10: a result of `process_document` whose status is the string error
has exactly the keys document_id, original_filename, status and error; the
success fields total_chunks, total_tokens and chunk_ids are absent. -/
theorem C10_error_result_keys (env : Env) (store : Store) (fp ct : String)
    (did : Int) (ofn : String) (desc : Option String) (res : PyDict)
    (store2 : Store)
    (h : process_document env store fp ct did ofn desc = (res, store2))
    (hs : res.lookup "status" = some (PyVal.str "error")) :
    res.map Prod.fst = ["document_id", "original_filename", "status", "error"]
      ∧ res.lookup "total_chunks" = Option.none
      ∧ res.lookup "total_tokens" = Option.none
      ∧ res.lookup "chunk_ids" = Option.none := by
  unfold process_document at h
  cases hb : processBody env store fp ct did ofn desc with
  | mk store1 r =>
    rw [hb] at h
    cases r with
    | ok d =>
      obtain ⟨text, chunks, embeddings, _, _, _, _, _, hd⟩ :=
        processBody_ok_inv env store fp ct did ofn desc store1 d hb
      dsimp only at h
      rw [Prod.mk.injEq] at h
      obtain ⟨hres, _⟩ := h
      rw [← hres, hd] at hs
      have : "processed" = "error" := by
        have h1 := Option.some.inj hs
        injection h1
      exact absurd this (by decide)
    | error e =>
      dsimp only at h
      rw [Prod.mk.injEq] at h
      obtain ⟨hres, _⟩ := h
      rw [← hres]
      refine ⟨rfl, rfl, rfl, rfl⟩

/-- Witness for C10 at a concrete failing run. -/
theorem C10_witness :
    ([("document_id", PyVal.int 1),
      ("original_filename", PyVal.str "song.mp3"),
      ("status", PyVal.str "error"),
      ("error", PyVal.str "boom")] : PyDict).map Prod.fst
        = ["document_id", "original_filename", "status", "error"]
      ∧ ([("document_id", PyVal.int 1),
          ("original_filename", PyVal.str "song.mp3"),
          ("status", PyVal.str "error"),
          ("error", PyVal.str "boom")] : PyDict).lookup "total_chunks"
        = Option.none
      ∧ ([("document_id", PyVal.int 1),
          ("original_filename", PyVal.str "song.mp3"),
          ("status", PyVal.str "error"),
          ("error", PyVal.str "boom")] : PyDict).lookup "total_tokens"
        = Option.none
      ∧ ([("document_id", PyVal.int 1),
          ("original_filename", PyVal.str "song.mp3"),
          ("status", PyVal.str "error"),
          ("error", PyVal.str "boom")] : PyDict).lookup "chunk_ids"
        = Option.none :=
  C10_error_result_keys envFail [] "p" "audio/mpeg" 1 "song.mp3" Option.none
    _ [] rfl rfl

/-- C1: a failure in the extract, chunk, embed or store step of
`process_document` is caught and converted into a returned dictionary with
status error holding the exception message, never propagated (every result
has status processed or error), and the relational record created before
processing still exists afterwards. -/
theorem C1_error_caught_record_kept (env : Env) (db : List DocRecord)
    (store : Store) (ufn ofn fp : String) (fs : Nat) (ct : String)
    (desc : Option String) :
    (∃ rec,
        rec ∈ (process_single_document env db store ufn ofn fp fs ct desc).1 ∧
        rec.id = nextId db ∧ rec.filename = ufn ∧
        rec.original_filename = ofn ∧ rec.content_type = ct) ∧
    (∀ res store2,
        process_document env store fp ct (nextId db) ofn desc = (res, store2) →
        res.lookup "status" = some (PyVal.str "processed") ∨
        res.lookup "status" = some (PyVal.str "error")) ∧
    (∀ store2 e,
        processBody env store fp ct (nextId db) ofn desc
          = (store2, Except.error e) →
        process_document env store fp ct (nextId db) ofn desc =
          ([("document_id", PyVal.int (nextId db)),
            ("original_filename", PyVal.str ofn),
            ("status", PyVal.str "error"),
            ("error", PyVal.str e)], store2)) := by
  refine ⟨⟨{ id := nextId db, filename := ufn, original_filename := ofn,
             file_path := fp, file_size := fs, content_type := ct,
             description := desc }, ?_, rfl, rfl, rfl, rfl⟩, ?_, ?_⟩
  · unfold process_single_document create_document_record
    split <;> simp
  · intro res store2 h
    unfold process_document at h
    cases hb : processBody env store fp ct (nextId db) ofn desc with
    | mk store1 r =>
      rw [hb] at h
      cases r with
      | ok d =>
        obtain ⟨text, chunks, embeddings, _, _, _, _, _, hd⟩ :=
          processBody_ok_inv env store fp ct (nextId db) ofn desc store1 d hb
        dsimp only at h
        rw [Prod.mk.injEq] at h
        obtain ⟨hres, _⟩ := h
        left
        rw [← hres, hd]
        rfl
      | error e =>
        dsimp only at h
        rw [Prod.mk.injEq] at h
        obtain ⟨hres, _⟩ := h
        right
        rw [← hres]
        rfl
  · intro store2 e h
    exact process_document_of_body_error env store fp ct (nextId db) ofn
      desc store2 e h

/-- Witness for C1 at a concrete environment whose extraction raises. -/
theorem C1_witness :
    (∃ rec,
        rec ∈ (process_single_document envFail [] [] "u.txt" "o.txt" "p" 1
          "text/plain" Option.none).1 ∧
        rec.id = nextId [] ∧ rec.filename = "u.txt" ∧
        rec.original_filename = "o.txt" ∧ rec.content_type = "text/plain") ∧
    process_document envFail [] "p" "text/plain" (nextId []) "o.txt"
        Option.none =
      ([("document_id", PyVal.int (nextId [])),
        ("original_filename", PyVal.str "o.txt"),
        ("status", PyVal.str "error"),
        ("error", PyVal.str "boom")], []) :=
  have h := C1_error_caught_record_kept envFail [] [] "u.txt" "o.txt" "p" 1
    "text/plain" Option.none
  ⟨h.1, h.2.2 [] "boom" rfl⟩

/-- C3: on a successful run (under the embedder contract that the encoder
returns one vector per input chunk), the returned total_chunks equals the
length of the returned chunk id list and the number of entries upserted
into the collection; every stored entry of the run carries that same
total_chunks in its metadata; and the stored ids are the document id,
an underscore and a chunk index running densely from 0 in order. -/
theorem C3_chunk_accounting (env : Env) (store : Store) (fp ct : String)
    (did : Int) (ofn : String) (desc : Option String) (res : PyDict)
    (store2 : Store)
    (henc : ∀ ts es, env.encode ts = Except.ok es → es.length = ts.length)
    (h : process_document env store fp ct did ofn desc = (res, store2))
    (hs : res.lookup "status" = some (PyVal.str "processed")) :
    ∃ (n : Nat) (ids : List String) (entries : List StoredChunk),
      res.lookup "total_chunks" = some (PyVal.int n) ∧
      res.lookup "chunk_ids" = some (PyVal.strList ids) ∧
      ids.length = n ∧
      store2 = store ++ entries ∧
      entries.length = n ∧
      (∀ j, j < n → ids[j]? = some (chunkIdStr did j)) ∧
      (∀ j e, entries[j]? = some e →
        e.id = chunkIdStr did j ∧
        e.metadata.lookup "chunk_index" = some (PyVal.int j) ∧
        e.metadata.lookup "total_chunks" = some (PyVal.int n)) := by
  unfold process_document at h
  cases hb : processBody env store fp ct did ofn desc with
  | mk store1 r =>
    rw [hb] at h
    cases r with
    | error e =>
      dsimp only at h
      rw [Prod.mk.injEq] at h
      obtain ⟨hres, _⟩ := h
      rw [← hres] at hs
      have hs' : some (PyVal.str "error") = some (PyVal.str "processed") := hs
      have h1 := Option.some.inj hs'
      injection h1 with hstr
      exact absurd hstr (by decide)
    | ok d =>
      obtain ⟨text, chunks, embeddings, h1, h2, h3, h4, hstore, hd⟩ :=
        processBody_ok_inv env store fp ct did ofn desc store1 d hb
      dsimp only at h
      rw [Prod.mk.injEq] at h
      obtain ⟨hres, hst2⟩ := h
      have hac := addChunks_eq_of_none env did ofn ct desc chunks.length
        (chunks.zip embeddings) store 0 h4
      have hzip : (chunks.zip embeddings).length = chunks.length := by
        rw [List.length_zip, henc chunks embeddings h3, Nat.min_self]
      refine ⟨chunks.length, idsOf did 0 (chunks.zip embeddings),
        entriesOf env did ofn ct desc chunks.length 0 (chunks.zip embeddings),
        ?_, ?_, ?_, ?_, ?_, ?_, ?_⟩
      · rw [← hres, hd]
        rfl
      · rw [← hres, hd]
        simp only [hac]
        rfl
      · rw [idsOf_length, hzip]
      · rw [← hst2, hstore]
        simp only [hac]
      · rw [entriesOf_length, hzip]
      · intro j hj
        have hj' : j < (chunks.zip embeddings).length := by
          rw [hzip]; exact hj
        rw [idsOf_getElem?, List.getElem?_eq_getElem hj']
        simp
      · intro j e hje
        rw [entriesOf_getElem?] at hje
        cases hp : (chunks.zip embeddings)[j]? with
        | none => rw [hp] at hje; simp at hje
        | some p =>
          rw [hp] at hje
          have hje' : mkEntry env did ofn ct desc chunks.length (0 + j) p = e :=
            Option.some.inj hje
          rw [← hje']
          refine ⟨by simp [mkEntry], ?_, ?_⟩
          · have := buildMetadata_lookup_chunk_index did (0 + j) ofn ct desc
              (env.countTokens p.1) chunks.length
            simpa [mkEntry] using this
          · have := buildMetadata_lookup_total_chunks did (0 + j) ofn ct desc
              (env.countTokens p.1) chunks.length
            simpa [mkEntry] using this

/-- Witness for C3 at a concrete successful two-chunk run. -/
theorem C3_witness :
    ∃ (n : Nat) (ids : List String) (entries : List StoredChunk),
      ((process_document envTwo [] "a.txt" "text/plain" 3 "a.txt"
          (some "d")).1).lookup "total_chunks" = some (PyVal.int n) ∧
      ((process_document envTwo [] "a.txt" "text/plain" 3 "a.txt"
          (some "d")).1).lookup "chunk_ids" = some (PyVal.strList ids) ∧
      ids.length = n ∧
      (process_document envTwo [] "a.txt" "text/plain" 3 "a.txt"
          (some "d")).2 = [] ++ entries ∧
      entries.length = n ∧
      (∀ j, j < n → ids[j]? = some (chunkIdStr 3 j)) ∧
      (∀ j e, entries[j]? = some e →
        e.id = chunkIdStr 3 j ∧
        e.metadata.lookup "chunk_index" = some (PyVal.int j) ∧
        e.metadata.lookup "total_chunks" = some (PyVal.int n)) :=
  C3_chunk_accounting envTwo [] "a.txt" "text/plain" 3 "a.txt" (some "d")
    (process_document envTwo [] "a.txt" "text/plain" 3 "a.txt" (some "d")).1
    (process_document envTwo [] "a.txt" "text/plain" 3 "a.txt" (some "d")).2
    (fun ts es h => by
      injection h with h'
      rw [← h']
      simp)
    rfl rfl

/-! ### Deletion lemmas (C7) -/

/-- Deletion always reports success. -/
theorem delete_document_chunks_fst (store : Store) (did : Int) :
    (delete_document_chunks store did).1 = true := by
  unfold delete_document_chunks
  dsimp only
  split <;> rfl

/-- After a deletion no chunk of the document remains. -/
theorem delete_document_chunks_no_match (store : Store) (did : Int) :
    (delete_document_chunks store did).2.filter
      (fun c => matchesDoc c did) = [] := by
  unfold delete_document_chunks
  dsimp only
  split
  · next hempty =>
    have hids : (store.filter (fun c => matchesDoc c did)).map
        (fun c => c.id) = [] := List.isEmpty_iff.mp hempty
    exact List.map_eq_nil_iff.mp hids
  · next hempty =>
    rw [List.filter_eq_nil_iff]
    intro c hc hmatch
    rw [List.mem_filter] at hc
    obtain ⟨hcs, hkeep⟩ := hc
    simp at hkeep
    exact hkeep c hcs hmatch rfl

/-- Deleting a document with no stored chunks is a successful no-op. -/
theorem delete_document_chunks_of_no_match (store : Store) (did : Int)
    (h : store.filter (fun c => matchesDoc c did) = []) :
    delete_document_chunks store did = (true, store) := by
  unfold delete_document_chunks
  rw [h]
  rfl

/-- C7: deletion is idempotent; both of two successive calls report
success, the first removes every chunk of the document, the second finds
nothing and leaves the collection unchanged, and a call on a document with
zero stored chunks is a successful no-op. -/
theorem C7_delete_idempotent (store : Store) (did : Int) :
    (delete_document_chunks store did).1 = true ∧
    (delete_document_chunks store did).2.filter
      (fun c => matchesDoc c did) = [] ∧
    (delete_document_chunks (delete_document_chunks store did).2 did).1
      = true ∧
    (delete_document_chunks (delete_document_chunks store did).2 did).2
      = (delete_document_chunks store did).2 ∧
    (store.filter (fun c => matchesDoc c did) = [] →
      (delete_document_chunks store did).2 = store) := by
  refine ⟨delete_document_chunks_fst store did,
    delete_document_chunks_no_match store did,
    delete_document_chunks_fst _ did, ?_, ?_⟩
  · have h := delete_document_chunks_of_no_match
      (delete_document_chunks store did).2 did
      (delete_document_chunks_no_match store did)
    rw [h]
  · intro h
    rw [delete_document_chunks_of_no_match store did h]

/-- A one-chunk collection for the deletion witness. -/
def c7store : Store :=
  [{ id := "7_0", document := "alpha", embedding := [],
     metadata := buildMetadata 7 0 "a.txt" "text/plain" Option.none 5 1 }]

/-- Witness for C7: both successive calls on a concrete one-chunk store
report success, and deleting from an empty store is a no-op success. -/
theorem C7_witness :
    (delete_document_chunks c7store 7).1 = true ∧
    (delete_document_chunks (delete_document_chunks c7store 7).2 7).1
      = true ∧
    (delete_document_chunks ([] : Store) 5).2 = [] :=
  ⟨(C7_delete_idempotent c7store 7).1,
   (C7_delete_idempotent c7store 7).2.2.1,
   (C7_delete_idempotent ([] : Store) 5).2.2.2.2 rfl⟩

/-! ### Sorting lemmas (C4) -/

/-- The expected chunk_index metadata values of a document with `n` chunks,
in order: some 0, some 1, ..., some (n-1). -/
def denseKeys (n : Nat) : List (Option PyVal) :=
  (List.range n).map (fun (j : Nat) => some (PyVal.int (j : Int)))

/-- The integers 0, 1, ..., n-1 in order. -/
def rangeInts (n : Nat) : List Int :=
  (List.range n).map (fun (j : Nat) => (j : Int))

/-- The chunk comparison is transitive. -/
theorem chunkLe_trans (a b c : COut) : chunkLe a b → chunkLe b c →
    chunkLe a c := by
  intro h1 h2
  simp only [chunkLe, decide_eq_true_eq] at h1 h2 ⊢
  omega

/-- The chunk comparison is total. -/
theorem chunkLe_total (a b : COut) : chunkLe a b || chunkLe b a := by
  simp only [chunkLe, Bool.or_eq_true, decide_eq_true_eq]
  omega

theorem rangeInts_sorted (n : Nat) : (rangeInts n).Pairwise (· ≤ ·) :=
  List.Pairwise.map (fun (j : Nat) => (j : Int))
    (fun a b h => show ((a : Nat) : Int) ≤ ((b : Nat) : Int) by
      exact_mod_cast Nat.le_of_lt h)
    (List.pairwise_lt_range n)

theorem denseKeys_map_sortKeyOf (n : Nat) :
    (denseKeys n).map sortKeyOf = rangeInts n := by
  simp only [denseKeys, rangeInts, List.map_map]
  rfl

/-- C4: whenever the store hands `get_document_chunks` the matching chunks
of a document in an arbitrary order, and the chunk indices of those chunks
are exactly 0 to n-1, the call succeeds and returns exactly the matching
chunks, sorted strictly ascending by chunk_index with no gaps, starting
at 0. -/
theorem C4_chunks_sorted_dense (env : Env) (store : Store) (did : Int)
    (raw : List StoredChunk) (n : Nat)
    (hget : env.getWhere store did = Except.ok raw)
    (hperm : raw.Perm (store.filter (fun c => matchesDoc c did)))
    (hidx : (raw.map (fun c => c.metadata.lookup "chunk_index")).Perm
        (denseKeys n)) :
    ∃ out, get_document_chunks env store did = Except.ok out ∧
      out.Perm ((store.filter (fun c => matchesDoc c did)).map toCOut) ∧
      out.map (fun c => c.metadata.lookup "chunk_index") = denseKeys n := by
  have hmem : ∀ c ∈ raw, ∃ k : Int,
      c.metadata.lookup "chunk_index" = some (PyVal.int k) := by
    intro c hc
    have h1 : c.metadata.lookup "chunk_index" ∈
        raw.map (fun c => c.metadata.lookup "chunk_index") :=
      List.mem_map_of_mem _ hc
    have h2 := hidx.mem_iff.mp h1
    rw [denseKeys, List.mem_map] at h2
    obtain ⟨j, _, hj⟩ := h2
    exact ⟨j, hj.symm⟩
  have hall : (raw.map toCOut).all hasChunkIndex = true := by
    rw [List.all_eq_true]
    intro c hc
    rw [List.mem_map] at hc
    obtain ⟨sc, hsc, rfl⟩ := hc
    obtain ⟨k, hk⟩ := hmem sc hsc
    simp [hasChunkIndex, toCOut, hk]
  have houtPerm : ((raw.map toCOut).mergeSort chunkLe).Perm
      (raw.map toCOut) :=
    List.mergeSort_perm _ _
  refine ⟨(raw.map toCOut).mergeSort chunkLe, ?_, ?_, ?_⟩
  · unfold get_document_chunks
    rw [hget]
    dsimp only
    rw [if_pos hall]
  · exact houtPerm.trans (hperm.map toCOut)
  · have hpair : ((raw.map toCOut).mergeSort chunkLe).Pairwise
        (fun a b => chunkLe a b) :=
      List.sorted_mergeSort chunkLe_trans chunkLe_total _
    have hkeysSorted : (((raw.map toCOut).mergeSort chunkLe).map
        chunkSortKey).Pairwise (· ≤ ·) :=
      List.Pairwise.map chunkSortKey
        (fun a b h => by simpa [chunkLe] using h) hpair
    have e1 : (raw.map toCOut).map chunkSortKey
        = (raw.map (fun c => c.metadata.lookup "chunk_index")).map
            sortKeyOf := by
      simp only [List.map_map]
      rfl
    have hkeysPerm : (((raw.map toCOut).mergeSort chunkLe).map
        chunkSortKey).Perm (rangeInts n) := by
      have p1 := houtPerm.map chunkSortKey
      rw [e1] at p1
      have p2 := hidx.map sortKeyOf
      rw [denseKeys_map_sortKeyOf] at p2
      exact p1.trans p2
    have hkeys : ((raw.map toCOut).mergeSort chunkLe).map chunkSortKey
        = rangeInts n :=
      List.eq_of_perm_of_sorted hkeysPerm hkeysSorted (rangeInts_sorted n)
    have hform : ∀ c ∈ (raw.map toCOut).mergeSort chunkLe,
        c.metadata.lookup "chunk_index"
          = some (PyVal.int (chunkSortKey c)) := by
      intro c hc
      have hc2 : c ∈ raw.map toCOut := houtPerm.subset hc
      rw [List.mem_map] at hc2
      obtain ⟨sc, hsc, rfl⟩ := hc2
      obtain ⟨k, hk⟩ := hmem sc hsc
      simp [toCOut, chunkSortKey, hk, sortKeyOf]
    calc ((raw.map toCOut).mergeSort chunkLe).map
          (fun c => c.metadata.lookup "chunk_index")
        = ((raw.map toCOut).mergeSort chunkLe).map
            (fun c => some (PyVal.int (chunkSortKey c))) :=
          List.map_congr_left hform
      _ = (((raw.map toCOut).mergeSort chunkLe).map chunkSortKey).map
            (fun (k : Int) => some (PyVal.int k)) := by
          rw [List.map_map]
          rfl
      _ = (rangeInts n).map (fun (k : Int) => some (PyVal.int k)) := by
          rw [hkeys]
      _ = denseKeys n := by
          rw [rangeInts, denseKeys, List.map_map]
          rfl

/-- A two-chunk collection owned by document 7, for the retrieval
witness. -/
def c4store : Store :=
  [{ id := "7_0", document := "alpha", embedding := [],
     metadata := buildMetadata 7 0 "a.txt" "text/plain" Option.none 5 2 },
   { id := "7_1", document := "beta", embedding := [],
     metadata := buildMetadata 7 1 "a.txt" "text/plain" Option.none 4 2 }]

/-- An environment whose store returns where-filter matches in reverse
order. -/
def c4env : Env :=
  { extract := fun _ _ => Except.ok "alpha beta"
    splitText := fun _ => Except.ok ["alpha", "beta"]
    encode := fun ts => Except.ok (ts.map (fun _ => []))
    countTokens := fun s => s.length
    addFail := fun _ _ => Option.none
    getWhere := fun s d =>
      Except.ok ((s.filter (fun c => matchesDoc c d)).reverse)
    queryStore := fun _ _ _ => Except.ok ⟨[], [], [], []⟩
    countStore := fun s => Except.ok s.length
    getLimit1 := fun _ => Except.ok [] }

/-- Witness for C4: with the store returning the two matching chunks in
reversed order, retrieval still returns them sorted by chunk index 0, 1. -/
theorem C4_witness :
    ∃ out, get_document_chunks c4env c4store 7 = Except.ok out ∧
      out.Perm ((c4store.filter (fun c => matchesDoc c 7)).map toCOut) ∧
      out.map (fun c => c.metadata.lookup "chunk_index") = denseKeys 2 :=
  C4_chunks_sorted_dense c4env c4store 7
    ((c4store.filter (fun c => matchesDoc c 7)).reverse) 2 rfl
    (List.reverse_perm _)
    (by
      have h : ((c4store.filter (fun c => matchesDoc c 7)).reverse.map
          (fun c => c.metadata.lookup "chunk_index"))
          = [some (PyVal.int 1), some (PyVal.int 0)] := rfl
      rw [h]
      exact List.Perm.swap _ _ _)

/-! ### Image extraction without a credential (C2) -/

/-- An image environment with no GROQ_API_KEY but a loadable image and
working OCR. -/
def imgEnvNoKey : ImgEnv Unit :=
  { groq_api_key := Option.none
    imread := fun _ => some ()
    cvtColor := id
    denoise := id
    clahe := id
    ocr := fun _ _ => "TOTAL 42.00"
    groqCall := fun _ => Except.ok "a grocery receipt" }

/-- An image environment with a key whose captioning call fails. -/
def imgEnvKeyFail : ImgEnv Unit :=
  { groq_api_key := some "gsk-test"
    imread := fun _ => some ()
    cvtColor := id
    denoise := id
    clahe := id
    ocr := fun _ _ => "TOTAL 42.00"
    groqCall := fun _ => Except.error "rate limited" }

/-- Counterexample to C2: with the credential absent but the image loadable
and OCR working, image extraction does not return OCR-only text — it raises
before attempting OCR. -/
theorem C2_counterexample :
    extract_text_from_image imgEnvNoKey "receipt.png" =
      Except.error
        "Error processing image: GROQ_API_KEY environment variable not set" :=
  rfl

/-- C2 as amended: an absent GROQ_API_KEY is fatal for the whole image
pathway (extraction raises before any OCR); OCR-only degradation with a
note happens only when the key is present and the captioning call itself
fails. -/
theorem C2_amended_key_fatal {Img : Type} (env : ImgEnv Img) (fp : String) :
    (env.groq_api_key = Option.none →
      extract_text_from_image env fp =
        Except.error
          "Error processing image: GROQ_API_KEY environment variable not set")
    ∧
    (∀ k img e, env.groq_api_key = some k → env.imread fp = some img →
      env.groqCall (groqPrompt (ocrTextOf env img)) = Except.error e →
      extract_text_from_image env fp =
        Except.ok ("OCR Text:\n" ++ ocrTextOf env img
          ++ "\n\nNote: AI description generation failed")) := by
  constructor
  · intro h
    unfold extract_text_from_image imageBody
    rw [h]
    rfl
  · intro k img e hk him hcall
    unfold extract_text_from_image imageBody
    rw [hk, him]
    dsimp only
    rw [hcall]

/-- Witness for the amended C2 at the two concrete image environments. -/
theorem C2_witness :
    extract_text_from_image imgEnvKeyFail "receipt.png" =
      Except.ok ("OCR Text:\n" ++ ocrTextOf imgEnvKeyFail ()
        ++ "\n\nNote: AI description generation failed") ∧
    extract_text_from_image imgEnvNoKey "receipt.png" =
      Except.error
        "Error processing image: GROQ_API_KEY environment variable not set" :=
  ⟨(C2_amended_key_fatal imgEnvKeyFail "receipt.png").2 "gsk-test" ()
      "rate limited" rfl rfl rfl,
   (C2_amended_key_fatal imgEnvNoKey "receipt.png").1 rfl⟩

/-! ### Failure propagation of search, chunk retrieval and stats (C6) -/

/-- Counterexample to C6: a backend failure inside `get_collection_stats`
is NOT raised to the caller — the method catches it and returns a normal
dictionary carrying the message under the error key. -/
theorem C6_counterexample :
    get_collection_stats envFail [] =
      Except.ok [("error", PyVal.str "backend down")] :=
  rfl

/-- C6 as amended: failures of `search_documents` and
`get_document_chunks` propagate to the caller as raised errors wrapped in
the respective message prefix, but `get_collection_stats` never raises — a
backend failure there is returned as a normal dictionary with an error
key (explicit, yet a returned value rather than a raised error). -/
theorem C6_amended_propagation (env : Env) (store : Store) (q : String)
    (n : Nat) (did : Int) :
    (∀ e, env.encode [q] = Except.error e →
      search_documents env store q n
        = Except.error ("Error searching documents: " ++ e)) ∧
    (∀ embs qe e, env.encode [q] = Except.ok embs →
      pyIndex embs 0 = Except.ok qe →
      env.queryStore store qe n = Except.error e →
      search_documents env store q n
        = Except.error ("Error searching documents: " ++ e)) ∧
    (∀ e, env.getWhere store did = Except.error e →
      get_document_chunks env store did
        = Except.error ("Error retrieving document chunks: " ++ e)) ∧
    (∃ d, get_collection_stats env store = Except.ok d) ∧
    (∀ e, env.countStore store = Except.error e →
      get_collection_stats env store
        = Except.ok [("error", PyVal.str e)]) := by
  refine ⟨?_, ?_, ?_, ?_, ?_⟩
  · intro e h
    unfold search_documents searchBody
    rw [h]
  · intro embs qe e h1 h2 h3
    unfold search_documents searchBody
    rw [h1]
    dsimp only
    rw [h2]
    dsimp only
    rw [h3]
  · intro e h
    unfold get_document_chunks
    rw [h]
  · cases hb : statsBody env store with
    | ok d => exact ⟨d, by unfold get_collection_stats; rw [hb]⟩
    | error e =>
      exact ⟨[("error", PyVal.str e)], by unfold get_collection_stats; rw [hb]⟩
  · intro e h
    have hb : statsBody env store = Except.error e := by
      unfold statsBody
      rw [h]
    unfold get_collection_stats
    rw [hb]

/-- An environment whose every ChromaDB operation fails. -/
def envDown : Env :=
  { extract := fun _ _ => Except.ok "text"
    splitText := fun t => Except.ok [t]
    encode := fun _ => Except.error "backend down"
    countTokens := fun s => s.length
    addFail := fun _ _ => some "backend down"
    getWhere := fun _ _ => Except.error "no store"
    queryStore := fun _ _ _ => Except.error "backend down"
    countStore := fun _ => Except.error "backend down"
    getLimit1 := fun _ => Except.error "backend down" }

/-- Witness for the amended C6 at concrete failing backends. -/
theorem C6_witness :
    search_documents envFail [] "query" 5
      = Except.error ("Error searching documents: " ++ "backend down") ∧
    get_document_chunks envDown [] 1
      = Except.error ("Error retrieving document chunks: " ++ "no store") ∧
    get_collection_stats envFail []
      = Except.ok [("error", PyVal.str "backend down")] :=
  have h := C6_amended_propagation envFail [] "query" 5 1
  have h2 := C6_amended_propagation envDown [] "query" 5 1
  ⟨h.2.1 [[]] [] "backend down" rfl rfl rfl,
   h2.2.2.1 "no store" rfl,
   h.2.2.2.2 "backend down" rfl⟩

/-! ### Bulk upload (C9) -/

/-- Every file of a bulk upload ends up either as an uploaded response or
as a collected error: the loop never drops or aborts a file. -/
theorem uploadLoop_length {σ ρ : Type}
    (p : FileInput → σ → Except String (ρ × σ)) :
    ∀ (files : List FileInput) (st : σ),
      (uploadLoop p st files).1.length
        + (uploadLoop p st files).2.1.length = files.length
  | [], _ => rfl
  | f :: rest, st => by
    by_cases hf : f.filename = ""
    · simp only [uploadLoop, if_pos hf]
      have := uploadLoop_length p rest st
      simp only [List.length_cons]
      omega
    · simp only [uploadLoop, if_neg hf]
      cases hp : p f st with
      | ok a =>
        obtain ⟨resp, st1⟩ := a
        dsimp only
        have := uploadLoop_length p rest st1
        simp only [List.length_cons]
        omega
      | error e =>
        dsimp only
        have := uploadLoop_length p rest st
        simp only [List.length_cons]
        omega

/-- A demonstration per-file processor over a trivial state. -/
def pDemo : FileInput → Unit → Except String (Unit × Unit) :=
  fun _ st => Except.ok ((), st)

/-- Counterexample to C9: the empty request has at most 10 files, yet it is
rejected with an HTTP 400 — no bulk-upload response (and hence no
uploaded_count/errors accounting) is produced for it. -/
theorem C9_counterexample :
    upload_multiple_documents pDemo () [] =
      Except.error (400, "No files provided") :=
  rfl

/-- C9 as amended: a request with more than 10 files, or with zero files,
is rejected outright with an HTTP 400 and no file is processed; for a
request of 1 to 10 files the loop runs over the files one at a time in
order and every file is accounted for: uploaded_count plus the number of
collected errors equals the number of files. -/
theorem C9_amended_bulk_accounting {σ ρ : Type}
    (p : FileInput → σ → Except String (ρ × σ)) (st : σ)
    (files : List FileInput) :
    (files.length > 10 →
      upload_multiple_documents p st files =
        Except.error (400, "Maximum 10 files allowed per request")) ∧
    (files = [] →
      upload_multiple_documents p st files =
        Except.error (400, "No files provided")) ∧
    (files ≠ [] → files.length ≤ 10 →
      ∃ r st2, upload_multiple_documents p st files = Except.ok (r, st2) ∧
        r.uploaded_count + r.errors.length = files.length ∧
        r.documents.length = r.uploaded_count ∧
        r.documents = (uploadLoop p st files).1 ∧
        r.errors = (uploadLoop p st files).2.1) := by
  refine ⟨?_, ?_, ?_⟩
  · intro h
    have hne : ¬(files.isEmpty = true) := by
      intro hh
      rw [List.isEmpty_iff] at hh
      subst hh
      simp at h
    unfold upload_multiple_documents
    rw [if_neg hne, if_pos h]
  · intro h
    subst h
    rfl
  · intro hne hlen
    have hne' : ¬(files.isEmpty = true) := by
      intro hh
      exact hne (List.isEmpty_iff.mp hh)
    unfold upload_multiple_documents
    rw [if_neg hne', if_neg (Nat.not_lt.mpr hlen)]
    refine ⟨_, _, rfl, ?_, rfl, rfl, rfl⟩
    exact uploadLoop_length p files st

/-- A per-file processor that fails on one specific filename. -/
def pPartial : FileInput → Nat → Except String (String × Nat) :=
  fun f st =>
    if f.filename = "bad.txt" then Except.error "disk full"
    else Except.ok (f.filename, st + 1)

/-- Witness for the amended C9: an 11-file request is rejected, and a
2-file request in which the second file fails still accounts for both
files. -/
theorem C9_witness :
    upload_multiple_documents pPartial 0
        (List.replicate 11 { filename := "a.txt" }) =
      Except.error (400, "Maximum 10 files allowed per request") ∧
    ∃ r st2,
      upload_multiple_documents pPartial 0
          [{ filename := "good.txt" }, { filename := "bad.txt" }] =
        Except.ok (r, st2) ∧
      r.uploaded_count + r.errors.length = 2 ∧
      r.documents.length = r.uploaded_count ∧
      r.documents = (uploadLoop pPartial 0
        [{ filename := "good.txt" }, { filename := "bad.txt" }]).1 ∧
      r.errors = (uploadLoop pPartial 0
        [{ filename := "good.txt" }, { filename := "bad.txt" }]).2.1 :=
  ⟨(C9_amended_bulk_accounting pPartial 0
      (List.replicate 11 { filename := "a.txt" })).1 (by simp),
   (C9_amended_bulk_accounting pPartial 0
      [{ filename := "good.txt" }, { filename := "bad.txt" }]).2.2
     (by simp) (by simp)⟩

end DocMgr
